import Mathlib

/-!
Verification of the metrics engine of `scripts/compute_metrics.py`.

The script populates a `daily_metrics` table from `daily_prices` using a
single SQL CTE chain (`METRICS_SQL`): `base_data` joins prices with active
assets, `with_returns` derives `daily_return_pct` and `daily_range_pct`,
and `with_all_metrics` derives the five windowed metrics with PostgreSQL
window functions (`ROWS BETWEEN p PRECEDING AND q`).  `compute_metrics`
deletes all existing metric rows and re-inserts the computed set in one
transaction, `log_validation_summary` audits per-asset NULL counts, and
`main` wires everything together with commit/rollback/close handling.

The embedding below models SQL NULL as `Option`, the `numeric` column
values as `ℚ` (PostgreSQL numeric is exact for the arithmetic used here;
`STDDEV_POP` is the square root of the population variance, presented over
`ℝ` in `presentRow`), and a window function at 0-based row position `i`
inside one asset partition as an aggregate over the explicit index window.
SQL aggregates ignore NULLs, which is the `filterMap` in `countNN`,
`avgNN` and `varPopNN`.  Division is total `ℚ` division; the schema
invariant (`close`/`low` required and positive) keeps every denominator
the engine actually divides by nonzero except for the trailing-volume
mean, which the source guards explicitly with `NULLIF(.., 0)`.
-/

namespace CryptoMetrics

/-- One row of the `assets` dimension table: identifier, symbol and the
`is_active` flag tested by `base_data`. -/
structure Asset where
  asset_id : ℕ
  symbol : String
  is_active : Bool
deriving DecidableEq, Inhabited

/-- One row of `daily_prices`, as selected by the `base_data` CTE:
`asset_id`, `date`, `open`, `high`, `low`, `close`, `volume_usd`.
Dates are modelled as day numbers in `ℤ`; a gapless series has
consecutive day numbers.  Every price column is nullable (`Option ℚ`). -/
structure PriceRow where
  asset_id : ℕ
  date : ℤ
  open_ : Option ℚ
  high : Option ℚ
  low : Option ℚ
  close : Option ℚ
  volume_usd : Option ℚ
deriving DecidableEq, Inhabited

/-- One row of the `with_returns` CTE: the carried-through columns plus
the two per-row metrics `daily_return_pct` and `daily_range_pct`. -/
structure ReturnRow where
  date : ℤ
  close : Option ℚ
  volume_usd : Option ℚ
  daily_return_pct : Option ℚ
  daily_range_pct : Option ℚ
deriving DecidableEq, Inhabited

/-- One row of the `with_all_metrics` CTE, and also one stored
`daily_metrics` row.  The two volatility columns are recorded as the
population variance (the square of `STDDEV_POP`); `presentRow` applies
the square root.  NULL-ness of `vol_7d`/`vol_30d` is unaffected by the
square root, so every NULL-count statement can be read at either level. -/
structure MetricRowQ where
  date : ℤ
  daily_return_pct : Option ℚ
  daily_range_pct : Option ℚ
  vol_7d_var : Option ℚ
  vol_30d_var : Option ℚ
  sma_7 : Option ℚ
  sma_30 : Option ℚ
  volume_ratio_30d : Option ℚ
deriving DecidableEq, Inhabited

/-- A computed metric row in its presented form: `vol_7d` and `vol_30d`
are the `STDDEV_POP` values (square roots of the recorded variances). -/
structure MetricPoint where
  date : ℤ
  daily_return_pct : Option ℚ
  daily_range_pct : Option ℚ
  vol_7d : Option ℝ
  vol_30d : Option ℝ
  sma_7 : Option ℚ
  sma_30 : Option ℚ
  volume_ratio_30d : Option ℚ
deriving Inhabited

/-- `COUNT(f x) OVER window`: SQL `COUNT` of an expression counts the
rows where the expression is non-NULL. -/
def countNN {α β : Type} (f : α → Option β) (l : List α) : ℕ :=
  (l.filterMap f).length

/-- `AVG(f x) OVER window`: arithmetic mean of the non-NULL values,
NULL when there are none. -/
def avgNN {α : Type} (f : α → Option ℚ) (l : List α) : Option ℚ :=
  let v := l.filterMap f
  if v.length = 0 then none else some (v.sum / (v.length : ℚ))

/-- Population variance of the non-NULL values, NULL when there are none.
`STDDEV_POP(f x) OVER window` is the square root of this value. -/
def varPopNN {α : Type} (f : α → Option ℚ) (l : List α) : Option ℚ :=
  let v := l.filterMap f
  if v.length = 0 then none
  else some (((v.map (fun x => (x - v.sum / (v.length : ℚ)) ^ 2)).sum) / (v.length : ℚ))

/-- `NULLIF(x, 0)`: NULL when the argument is NULL or zero. -/
def nullif0 (o : Option ℚ) : Option ℚ :=
  o.bind (fun x => if x = 0 then none else some x)

/-- Row positions covered by `ROWS BETWEEN p PRECEDING AND CURRENT ROW`
at 0-based position `i`: positions `i - p` (clamped at 0) through `i`. -/
def winIdxs (i p : ℕ) : List ℕ := List.range' (i - p) (min p i + 1)

/-- Row positions covered by `ROWS BETWEEN p PRECEDING AND 1 PRECEDING`
at position `i`: positions `i - p` (clamped at 0) through `i - 1`. -/
def winIdxsPrec (i p : ℕ) : List ℕ := List.range' (i - p) (min p i)

/-- The rows of the window `ROWS BETWEEN p PRECEDING AND CURRENT ROW`
within one partition `wr`, at position `i`. -/
def winMap (wr : List ReturnRow) (i p : ℕ) : List ReturnRow :=
  (winIdxs i p).map (fun j => wr.getD j default)

/-- The rows of the window `ROWS BETWEEN p PRECEDING AND 1 PRECEDING`
within one partition `wr`, at position `i`. -/
def winMapPrec (wr : List ReturnRow) (i p : ℕ) : List ReturnRow :=
  (winIdxsPrec i p).map (fun j => wr.getD j default)

/-- The `with_returns` CTE at row position `i` of one asset partition:
`daily_return_pct` is `(close - LAG(close)) / LAG(close) * 100` when
`LAG(close, 1)` is non-NULL (NULL propagates from a NULL current close),
and `daily_range_pct` is `(high - low) / low * 100` when both `high`
and `low` are non-NULL. -/
def returnRowAt (rows : List PriceRow) (i : ℕ) : ReturnRow :=
  let r := rows.getD i default
  let lagClose : Option ℚ := if i = 0 then none else (rows.getD (i - 1) default).close
  { date := r.date
    close := r.close
    volume_usd := r.volume_usd
    daily_return_pct :=
      match lagClose with
      | none => none
      | some pc => r.close.map (fun c => (c - pc) / pc * 100)
    daily_range_pct :=
      match r.high, r.low with
      | some h, some l => some ((h - l) / l * 100)
      | _, _ => none }

/-- The `with_returns` CTE over one asset partition (ordered by date). -/
def with_returns (rows : List PriceRow) : List ReturnRow :=
  (List.range rows.length).map (returnRowAt rows)

/-- The `with_all_metrics` CTE at row position `i` of one asset
partition `wr`.  Each windowed metric has the source's exact-count
guard: `CASE WHEN COUNT(..) OVER w = n THEN agg(..) OVER w ELSE NULL`.
`volume_ratio_30d` is `volume_usd / NULLIF(AVG(volume_usd) OVER prior30, 0)`
guarded by `COUNT(volume_usd) OVER prior30 = 30`. -/
def metricRowAt (wr : List ReturnRow) (i : ℕ) : MetricRowQ :=
  let w := wr.getD i default
  let win7 := winMap wr i 6
  let win30 := winMap wr i 29
  let winp := winMapPrec wr i 30
  { date := w.date
    daily_return_pct := w.daily_return_pct
    daily_range_pct := w.daily_range_pct
    vol_7d_var :=
      if countNN (fun x => x.daily_return_pct) win7 = 7 then
        varPopNN (fun x => x.daily_return_pct) win7
      else none
    vol_30d_var :=
      if countNN (fun x => x.daily_return_pct) win30 = 30 then
        varPopNN (fun x => x.daily_return_pct) win30
      else none
    sma_7 :=
      if countNN (fun x => x.close) win7 = 7 then
        avgNN (fun x => x.close) win7
      else none
    sma_30 :=
      if countNN (fun x => x.close) win30 = 30 then
        avgNN (fun x => x.close) win30
      else none
    volume_ratio_30d :=
      if countNN (fun x => x.volume_usd) winp = 30 then
        match w.volume_usd, nullif0 (avgNN (fun x => x.volume_usd) winp) with
        | some v, some m => some (v / m)
        | _, _ => none
      else none }

/-- The full CTE chain over one asset partition: the computed
`daily_metrics` rows for one asset, in date order. -/
def computeAssetMetricsQ (rows : List PriceRow) : List MetricRowQ :=
  (List.range rows.length).map (metricRowAt (with_returns rows))

/-- Presentation of a computed row: `STDDEV_POP` is the square root of
the recorded population variance; every other column is unchanged. -/
noncomputable def presentRow (r : MetricRowQ) : MetricPoint :=
  { date := r.date
    daily_return_pct := r.daily_return_pct
    daily_range_pct := r.daily_range_pct
    vol_7d := r.vol_7d_var.map (fun q => Real.sqrt (q : ℝ))
    vol_30d := r.vol_30d_var.map (fun q => Real.sqrt (q : ℝ))
    sma_7 := r.sma_7
    sma_30 := r.sma_30
    volume_ratio_30d := r.volume_ratio_30d }

/-- The computed metric rows of one asset, in presented form. -/
noncomputable def computeAssetMetrics (rows : List PriceRow) : List MetricPoint :=
  (computeAssetMetricsQ rows).map presentRow

/-- Insertion step of a date-ascending insertion sort. -/
def insertByDate (r : PriceRow) : List PriceRow → List PriceRow
  | [] => [r]
  | x :: xs => if r.date ≤ x.date then r :: x :: xs else x :: insertByDate r xs

/-- `ORDER BY date` within one asset partition. -/
def sortByDate (l : List PriceRow) : List PriceRow :=
  l.foldr insertByDate []

/-- The database state the script manipulates: the `assets` dimension,
the `daily_prices` input and the `daily_metrics` output (rows keyed by
`asset_id`). -/
structure DB where
  assets : List Asset
  daily_prices : List PriceRow
  daily_metrics : List (ℕ × MetricRowQ)
deriving DecidableEq, Inhabited

/-- The price series of one asset as seen by `base_data`: the rows with
this `asset_id`, ordered by date. -/
def seriesFor (db : DB) (aid : ℕ) : List PriceRow :=
  sortByDate (db.daily_prices.filter (fun p => p.asset_id == aid))

/-- `JOIN assets .. WHERE a.is_active = TRUE` of `base_data`. -/
def activeAssets (db : DB) : List Asset :=
  db.assets.filter (fun a => a.is_active)

/-- The rows `METRICS_SQL` inserts, for a given list of asset partitions:
for each listed asset, the CTE chain over its price series.  Asset ids
are assumed unique (`assets.asset_id` is the primary key), so listing
assets and partitioning by `asset_id` agree. -/
def outputFor (db : DB) (as : List Asset) : List (ℕ × MetricRowQ) :=
  as.flatMap (fun a =>
    (computeAssetMetricsQ (seriesFor db a.asset_id)).map (fun m => (a.asset_id, m)))

/-- Everything `METRICS_SQL` inserts into `daily_metrics`: the CTE chain
over every active asset's price series. -/
def metricsOutput (db : DB) : List (ℕ × MetricRowQ) :=
  outputFor db (activeAssets db)

/-- The presented `daily_metrics` rows of one asset after a recompute:
the stored rows with this `asset_id`, with `STDDEV_POP` presented. -/
noncomputable def assetBlock (db : DB) (aid : ℕ) : List MetricPoint :=
  (((metricsOutput db).filter (fun p => p.1 == aid)).map Prod.snd).map presentRow

/-- NULL count of one metric column over a list of rows. -/
def nullCount {α β : Type} (f : α → Option β) (l : List α) : ℕ :=
  l.countP (fun r => (f r).isNone)

/-- A connection in the sense of psycopg2 with `autocommit = False`:
`durable` is what is visible outside the transaction (and after a
rollback), `session` is the in-transaction view, `closed` records
`conn.close()`. -/
structure Conn where
  durable : DB
  session : DB
  closed : Bool
deriving DecidableEq

/-- `get_db_connection`: a fresh connection over the current store. -/
def connect (db : DB) : Conn := ⟨db, db, false⟩

/-- `cur.execute("DELETE FROM daily_metrics;")`: clears the table in the
session and reports the number of deleted rows. -/
def execDelete (c : Conn) : Conn × ℕ :=
  ({ c with session := { c.session with daily_metrics := [] } },
   c.session.daily_metrics.length)

/-- `cur.execute(METRICS_SQL)`: inserts the computed rows in the session
and reports the number of inserted rows. -/
def execInsertMetrics (c : Conn) : Conn × ℕ :=
  let rows := metricsOutput c.session
  ({ c with session := { c.session with daily_metrics := rows } }, rows.length)

/-- `conn.commit()`. -/
def commit (c : Conn) : Conn := { c with durable := c.session }

/-- `conn.rollback()`: discards the in-flight session changes. -/
def rollback (c : Conn) : Conn := { c with session := c.durable }

/-- `conn.close()`. -/
def closeConn (c : Conn) : Conn := { c with closed := true }

/-- `compute_metrics(conn)`: DELETE then INSERT then commit, returning
the inserted row count.  A failure of either statement (modelled by the
fault parameters `fd`/`fi` carrying the raised error) propagates without
a commit, exactly as an uncaught psycopg2 exception would. -/
def compute_metrics {ε : Type} (fd fi : Option ε) (c : Conn) : Except ε ℕ × Conn :=
  match fd with
  | some e => (Except.error e, c)
  | none =>
    let c1 := (execDelete c).1
    match fi with
    | some e => (Except.error e, c1)
    | none =>
      let r := execInsertMetrics c1
      (Except.ok r.2, commit r.1)

/-- One audited row of `log_validation_summary`'s validation query:
per-asset totals and NULL counts. -/
structure ValRow where
  symbol : String
  asset_id : ℕ
  total_rows : ℕ
  null_ret : ℕ
  null_rng : ℕ
  null_v7 : ℕ
  null_v30 : ℕ
  null_s7 : ℕ
  null_s30 : ℕ
  null_vr : ℕ
deriving DecidableEq, Inhabited

/-- The validation query's per-asset aggregate row. -/
def valRowFor (a : Asset) (ms : List MetricRowQ) : ValRow :=
  { symbol := a.symbol
    asset_id := a.asset_id
    total_rows := ms.length
    null_ret := nullCount (fun m => m.daily_return_pct) ms
    null_rng := nullCount (fun m => m.daily_range_pct) ms
    null_v7 := nullCount (fun m => m.vol_7d_var) ms
    null_v30 := nullCount (fun m => m.vol_30d_var) ms
    null_s7 := nullCount (fun m => m.sma_7) ms
    null_s30 := nullCount (fun m => m.sma_30) ms
    null_vr := nullCount (fun m => m.volume_ratio_30d) ms }

/-- The validation query: `daily_metrics` joined to `assets`, grouped by
asset.  An asset with no metric rows contributes no group. -/
def validationRows (db : DB) : List ValRow :=
  db.assets.filterMap (fun a =>
    let ms := (db.daily_metrics.filter (fun p => p.1 == a.asset_id)).map Prod.snd
    if ms.isEmpty then none else some (valRowFor a ms))

/-- The per-asset expected-value checks of `log_validation_summary`:
ret=1, rng=0, v7=7, v30=30, s7=6, s30=29, vr=30. -/
def valRowOk (v : ValRow) : Bool :=
  v.null_ret == 1 && v.null_rng == 0 && v.null_v7 == 7 && v.null_v30 == 30 &&
    v.null_s7 == 6 && v.null_s30 == 29 && v.null_vr == 30

/-- `log_validation_summary(conn)`: reads the committed metrics, reports
the per-asset table and the overall `all_ok` flag.  It raises nothing
and mutates nothing. -/
def log_validation_summary (db : DB) : List ValRow × Bool :=
  let rows := validationRows db
  (rows, rows.all valRowOk)

/-- `main()`: connect, run `compute_metrics`, on success run the
validation summary; on any exception roll back and re-raise; close the
connection in the `finally` block on every path.  The result is the
final connection state, the process outcome (inserted row count or the
re-raised error) and, when reached, the validation report. -/
def main_run {ε : Type} (db : DB) (fd fi : Option ε) :
    Conn × Except ε ℕ × Option (List ValRow × Bool) :=
  let c := connect db
  let r := compute_metrics fd fi c
  match r.1 with
  | Except.ok n => (closeConn r.2, Except.ok n, some (log_validation_summary r.2.durable))
  | Except.error e => (closeConn (rollback r.2), Except.error e, none)

/-- Bool-valued gaplessness of a per-asset price series: the day numbers
are consecutive (each row's date is the previous row's date plus one). -/
def gaplessB : List PriceRow → Bool
  | [] => true
  | [_] => true
  | a :: b :: t => (b.date == a.date + 1) && gaplessB (b :: t)

/-- A 40-day constant series: close 100, volume 1000 every day, all
other columns populated, consecutive dates. -/
def constSeries : List PriceRow :=
  (List.range 40).map (fun (d : ℕ) =>
    { asset_id := 1, date := (d : ℤ), open_ := some 100, high := some 100,
      low := some 100, close := some 100, volume_usd := some 1000 })

/-- A 37-day gapless series with every column populated but volume 0 on
every day: the trailing 30-day volume mean is 0 wherever it is defined. -/
def zeroVolSeries : List PriceRow :=
  (List.range 37).map (fun (d : ℕ) =>
    { asset_id := 1, date := (d : ℤ), open_ := some 1, high := some 1,
      low := some 1, close := some 1, volume_usd := some 0 })

/-- A store holding one active asset and the zero-volume series. -/
def zeroVolDB : DB :=
  { assets := [⟨1, "BTC", true⟩], daily_prices := zeroVolSeries, daily_metrics := [] }

/-- A 37-day gapless series with every column populated and volume 1. -/
def onesSeries : List PriceRow :=
  (List.range 37).map (fun (d : ℕ) =>
    { asset_id := 1, date := (d : ℤ), open_ := some 1, high := some 1,
      low := some 1, close := some 1, volume_usd := some 1 })

/-- A store holding one active asset and the all-ones series. -/
def onesDB : DB :=
  { assets := [⟨1, "BTC", true⟩], daily_prices := onesSeries, daily_metrics := [] }

/-- A two-day series: far too short for the windowed metrics, so the
validation audit necessarily reports a mismatch. -/
def twoRowSeries : List PriceRow :=
  (List.range 2).map (fun (d : ℕ) =>
    { asset_id := 1, date := (d : ℤ), open_ := some 1, high := some 1,
      low := some 1, close := some 1, volume_usd := some 1 })

/-- A store holding one active asset and the two-day series. -/
def twoRowDB : DB :=
  { assets := [⟨1, "BTC", true⟩], daily_prices := twoRowSeries, daily_metrics := [] }

/-- A 31-day series whose volume is populated except on the last day. -/
def mixedVolSeries : List PriceRow :=
  (List.range 31).map (fun (d : ℕ) =>
    { asset_id := 1, date := (d : ℤ), open_ := some 1, high := some 1,
      low := some 1, close := some 1,
      volume_usd := if d == 30 then none else some 1 })

section Helpers

/-- `List.filterMap` keeps exactly the elements whose image is non-NULL. -/
theorem length_filterMap_eq_countP {α β : Type} (f : α → Option β) (l : List α) :
    (l.filterMap f).length = l.countP (fun x => (f x).isSome) := by
  induction l with
  | nil => rfl
  | cons a t ih =>
    rw [List.filterMap_cons, List.countP_cons]
    cases h : f a <;> simp [h, ih]

/-- Counting the elements of `range' s n` that are at least `k`. -/
theorem countP_range'_ge (k s n : ℕ) :
    (List.range' s n).countP (fun j => decide (k ≤ j)) = n - (k - s) := by
  induction n generalizing s with
  | zero => simp
  | succ m ih =>
    rw [List.range'_succ, List.countP_cons, ih (s + 1)]
    by_cases h : k ≤ s <;> simp [h] <;> omega

/-- Counting the elements of `range n` below `k`. -/
theorem countP_range_lt (k n : ℕ) :
    (List.range n).countP (fun j => decide (j < k)) = min k n := by
  induction n with
  | zero => simp
  | succ m ih =>
    rw [List.range_succ, List.countP_append, ih]
    by_cases h : m < k <;> simp [h] <;> omega

/-- Reading a mapped index table at an in-range position. -/
theorem getD_range_map {α : Type} [Inhabited α] (f : ℕ → α) {n i : ℕ} (h : i < n) :
    ((List.range n).map f).getD i default = f i := by
  rw [List.getD_eq_getElem _ _ (by simpa using h), List.getElem_map, List.getElem_range]

/-- The non-NULL count over a window is a count over the index window. -/
theorem countNN_winMap {β : Type} (f : ReturnRow → Option β) (wr : List ReturnRow) (i p : ℕ) :
    countNN f (winMap wr i p) =
      (winIdxs i p).countP (fun j => (f (wr.getD j default)).isSome) := by
  rw [winMap, countNN, List.filterMap_map, length_filterMap_eq_countP]
  rfl

/-- The non-NULL count over a preceding-rows window is a count over the
index window. -/
theorem countNN_winMapPrec {β : Type} (f : ReturnRow → Option β) (wr : List ReturnRow) (i p : ℕ) :
    countNN f (winMapPrec wr i p) =
      (winIdxsPrec i p).countP (fun j => (f (wr.getD j default)).isSome) := by
  rw [winMapPrec, countNN, List.filterMap_map, length_filterMap_eq_countP]
  rfl

/-- Membership of the trailing window's index table. -/
theorem mem_winIdxs {j i p : ℕ} : j ∈ winIdxs i p ↔ i - p ≤ j ∧ j ≤ i := by
  rw [winIdxs, List.mem_range'_1]
  omega

/-- Membership of the preceding-rows window's index table. -/
theorem mem_winIdxsPrec {j i p : ℕ} : j ∈ winIdxsPrec i p ↔ i - p ≤ j ∧ j < i := by
  rw [winIdxsPrec, List.mem_range'_1]
  omega

/-- The rows of `with_returns` in an in-range position. -/
theorem with_returns_getD {rows : List PriceRow} {i : ℕ} (h : i < rows.length) :
    (with_returns rows).getD i default = returnRowAt rows i :=
  getD_range_map _ h

/-- The rows of the computed per-asset output in an in-range position. -/
theorem computeAssetMetricsQ_getD {rows : List PriceRow} {i : ℕ} (h : i < rows.length) :
    (computeAssetMetricsQ rows).getD i default = metricRowAt (with_returns rows) i :=
  getD_range_map _ h

/-- Length of the computed per-asset output. -/
theorem computeAssetMetricsQ_length (rows : List PriceRow) :
    (computeAssetMetricsQ rows).length = rows.length := by
  simp [computeAssetMetricsQ]

/-- A `getD` at an in-range position is a member of the list. -/
theorem getD_mem {α : Type} [Inhabited α] {l : List α} {i : ℕ} (h : i < l.length) :
    l.getD i default ∈ l := by
  rw [List.getD_eq_getElem _ _ h]
  exact List.getElem_mem h

end Helpers

section Shape

theorem metricRowAt_return (wr : List ReturnRow) (i : ℕ) :
    (metricRowAt wr i).daily_return_pct = (wr.getD i default).daily_return_pct := rfl

theorem metricRowAt_range (wr : List ReturnRow) (i : ℕ) :
    (metricRowAt wr i).daily_range_pct = (wr.getD i default).daily_range_pct := rfl

theorem metricRowAt_vol7 (wr : List ReturnRow) (i : ℕ) :
    (metricRowAt wr i).vol_7d_var =
      if countNN (fun x => x.daily_return_pct) (winMap wr i 6) = 7 then
        varPopNN (fun x => x.daily_return_pct) (winMap wr i 6)
      else none := rfl

theorem metricRowAt_vol30 (wr : List ReturnRow) (i : ℕ) :
    (metricRowAt wr i).vol_30d_var =
      if countNN (fun x => x.daily_return_pct) (winMap wr i 29) = 30 then
        varPopNN (fun x => x.daily_return_pct) (winMap wr i 29)
      else none := rfl

theorem metricRowAt_sma7 (wr : List ReturnRow) (i : ℕ) :
    (metricRowAt wr i).sma_7 =
      if countNN (fun x => x.close) (winMap wr i 6) = 7 then
        avgNN (fun x => x.close) (winMap wr i 6)
      else none := rfl

theorem metricRowAt_sma30 (wr : List ReturnRow) (i : ℕ) :
    (metricRowAt wr i).sma_30 =
      if countNN (fun x => x.close) (winMap wr i 29) = 30 then
        avgNN (fun x => x.close) (winMap wr i 29)
      else none := rfl

theorem metricRowAt_ratio (wr : List ReturnRow) (i : ℕ) :
    (metricRowAt wr i).volume_ratio_30d =
      if countNN (fun x => x.volume_usd) (winMapPrec wr i 30) = 30 then
        match (wr.getD i default).volume_usd,
            nullif0 (avgNN (fun x => x.volume_usd) (winMapPrec wr i 30)) with
        | some v, some m => some (v / m)
        | _, _ => none
      else none := rfl

theorem returnRowAt_close (rows : List PriceRow) (i : ℕ) :
    (returnRowAt rows i).close = (rows.getD i default).close := rfl

theorem returnRowAt_volume (rows : List PriceRow) (i : ℕ) :
    (returnRowAt rows i).volume_usd = (rows.getD i default).volume_usd := rfl

/-- `avgNN` yields a value whenever the window holds a non-NULL entry. -/
theorem avgNN_isSome {α : Type} (f : α → Option ℚ) (l : List α)
    (h : countNN f l ≠ 0) : (avgNN f l).isSome = true := by
  have h' : (l.filterMap f).length ≠ 0 := h
  simp [avgNN, h']

/-- `varPopNN` yields a value whenever the window holds a non-NULL entry. -/
theorem varPopNN_isSome {α : Type} (f : α → Option ℚ) (l : List α)
    (h : countNN f l ≠ 0) : (varPopNN f l).isSome = true := by
  have h' : (l.filterMap f).length ≠ 0 := h
  simp [varPopNN, h']

end Shape

section Characterization

variable {rows : List PriceRow}

/-- `daily_return_pct` of an in-range row is non-NULL exactly when the
row has a predecessor, provided every close is populated. -/
theorem ret_isSome (hclose : ∀ r ∈ rows, r.close.isSome = true)
    {i : ℕ} (hi : i < rows.length) :
    ((returnRowAt rows i).daily_return_pct).isSome = true ↔ 1 ≤ i := by
  cases i with
  | zero => simp [returnRowAt]
  | succ k =>
    have h1 : k < rows.length := by omega
    obtain ⟨pc, hpc⟩ := Option.isSome_iff_exists.mp (hclose _ (getD_mem h1))
    obtain ⟨c, hc⟩ := Option.isSome_iff_exists.mp (hclose _ (getD_mem hi))
    simp only [List.getD, List.get?_eq_getElem?] at hpc hc
    simp [returnRowAt, List.getD, hpc, hc]

/-- The window count of `daily_return_pct`, in closed form, when every
close is populated. -/
theorem countNN_ret_win (hclose : ∀ r ∈ rows, r.close.isSome = true)
    {i : ℕ} (hi : i < rows.length) (p : ℕ) :
    countNN (fun x => x.daily_return_pct) (winMap (with_returns rows) i p) =
      (min p i + 1) - (1 - (i - p)) := by
  rw [countNN_winMap]
  have hcg : ∀ j ∈ winIdxs i p,
      ((((with_returns rows).getD j default).daily_return_pct).isSome = true) ↔
        (decide (1 ≤ j) = true) := by
    intro j hj
    have hj' := mem_winIdxs.mp hj
    have hji : j < rows.length := by omega
    rw [with_returns_getD hji]
    simp only [decide_eq_true_eq]
    exact ret_isSome hclose hji
  rw [List.countP_congr hcg, winIdxs, countP_range'_ge]

/-- The window count of `close`, in closed form, when every close is
populated. -/
theorem countNN_close_win (hclose : ∀ r ∈ rows, r.close.isSome = true)
    {i : ℕ} (hi : i < rows.length) (p : ℕ) :
    countNN (fun x => x.close) (winMap (with_returns rows) i p) = min p i + 1 := by
  rw [countNN_winMap]
  have hall : ∀ j ∈ winIdxs i p,
      (fun j => (((with_returns rows).getD j default).close).isSome) j = true := by
    intro j hj
    have hj' := mem_winIdxs.mp hj
    have hji : j < rows.length := by omega
    show (((with_returns rows).getD j default).close).isSome = true
    rw [with_returns_getD hji, returnRowAt_close]
    exact hclose _ (getD_mem hji)
  rw [List.countP_eq_length.mpr hall, winIdxs, List.length_range']

/-- The preceding-window count of `volume_usd`, in closed form, when
every volume is populated. -/
theorem countNN_vol_winPrec (hvol : ∀ r ∈ rows, r.volume_usd.isSome = true)
    {i : ℕ} (hi : i < rows.length) :
    countNN (fun x => x.volume_usd) (winMapPrec (with_returns rows) i 30) = min 30 i := by
  rw [countNN_winMapPrec]
  have hall : ∀ j ∈ winIdxsPrec i 30,
      (fun j => (((with_returns rows).getD j default).volume_usd).isSome) j = true := by
    intro j hj
    have hj' := mem_winIdxsPrec.mp hj
    have hji : j < rows.length := by omega
    show (((with_returns rows).getD j default).volume_usd).isSome = true
    rw [with_returns_getD hji, returnRowAt_volume]
    exact hvol _ (getD_mem hji)
  rw [List.countP_eq_length.mpr hall, winIdxsPrec, List.length_range']

/-- `vol_7d` of an in-range row is non-NULL exactly when `i ≥ 7`,
provided every close is populated: the 7-row window must hold seven
non-NULL returns, and the partition's first return is NULL. -/
theorem vol7_isSome_iff (hclose : ∀ r ∈ rows, r.close.isSome = true)
    {i : ℕ} (hi : i < rows.length) :
    ((metricRowAt (with_returns rows) i).vol_7d_var).isSome = true ↔ 7 ≤ i := by
  rw [metricRowAt_vol7]
  have hc := countNN_ret_win hclose hi 6
  by_cases h7 : 7 ≤ i
  · have hc7 : countNN (fun x => x.daily_return_pct) (winMap (with_returns rows) i 6) = 7 := by
      rw [hc]; omega
    rw [if_pos hc7]
    simp only [h7, iff_true]
    exact varPopNN_isSome _ _ (by rw [hc7]; norm_num)
  · have hcn : countNN (fun x => x.daily_return_pct) (winMap (with_returns rows) i 6) ≠ 7 := by
      rw [hc]; omega
    rw [if_neg hcn]
    simpa using h7

/-- `vol_30d` of an in-range row is non-NULL exactly when `i ≥ 30`,
provided every close is populated. -/
theorem vol30_isSome_iff (hclose : ∀ r ∈ rows, r.close.isSome = true)
    {i : ℕ} (hi : i < rows.length) :
    ((metricRowAt (with_returns rows) i).vol_30d_var).isSome = true ↔ 30 ≤ i := by
  rw [metricRowAt_vol30]
  have hc := countNN_ret_win hclose hi 29
  by_cases h30 : 30 ≤ i
  · have hc30 : countNN (fun x => x.daily_return_pct) (winMap (with_returns rows) i 29) = 30 := by
      rw [hc]; omega
    rw [if_pos hc30]
    simp only [h30, iff_true]
    exact varPopNN_isSome _ _ (by rw [hc30]; norm_num)
  · have hcn : countNN (fun x => x.daily_return_pct) (winMap (with_returns rows) i 29) ≠ 30 := by
      rw [hc]; omega
    rw [if_neg hcn]
    simpa using h30

/-- `sma_7` of an in-range row is non-NULL exactly when `i ≥ 6`,
provided every close is populated. -/
theorem sma7_isSome_iff (hclose : ∀ r ∈ rows, r.close.isSome = true)
    {i : ℕ} (hi : i < rows.length) :
    ((metricRowAt (with_returns rows) i).sma_7).isSome = true ↔ 6 ≤ i := by
  rw [metricRowAt_sma7]
  have hc := countNN_close_win hclose hi 6
  by_cases h6 : 6 ≤ i
  · have hc7 : countNN (fun x => x.close) (winMap (with_returns rows) i 6) = 7 := by
      rw [hc]; omega
    rw [if_pos hc7]
    simp only [h6, iff_true]
    exact avgNN_isSome _ _ (by rw [hc7]; norm_num)
  · have hcn : countNN (fun x => x.close) (winMap (with_returns rows) i 6) ≠ 7 := by
      rw [hc]; omega
    rw [if_neg hcn]
    simpa using h6

/-- `sma_30` of an in-range row is non-NULL exactly when `i ≥ 29`,
provided every close is populated. -/
theorem sma30_isSome_iff (hclose : ∀ r ∈ rows, r.close.isSome = true)
    {i : ℕ} (hi : i < rows.length) :
    ((metricRowAt (with_returns rows) i).sma_30).isSome = true ↔ 29 ≤ i := by
  rw [metricRowAt_sma30]
  have hc := countNN_close_win hclose hi 29
  by_cases h29 : 29 ≤ i
  · have hc30 : countNN (fun x => x.close) (winMap (with_returns rows) i 29) = 30 := by
      rw [hc]; omega
    rw [if_pos hc30]
    simp only [h29, iff_true]
    exact avgNN_isSome _ _ (by rw [hc30]; norm_num)
  · have hcn : countNN (fun x => x.close) (winMap (with_returns rows) i 29) ≠ 30 := by
      rw [hc]; omega
    rw [if_neg hcn]
    simpa using h29

/-- `daily_range_pct` of an in-range row is non-NULL whenever `high` and
`low` are populated on that row. -/
theorem range_isSome {i : ℕ} (hi : i < rows.length)
    (hh : ((rows.getD i default).high).isSome = true)
    (hl : ((rows.getD i default).low).isSome = true) :
    ((metricRowAt (with_returns rows) i).daily_range_pct).isSome = true := by
  rw [metricRowAt_range, with_returns_getD hi]
  obtain ⟨h, hh'⟩ := Option.isSome_iff_exists.mp hh
  obtain ⟨l, hl'⟩ := Option.isSome_iff_exists.mp hl
  simp only [List.getD, List.get?_eq_getElem?] at hh' hl'
  simp [returnRowAt, List.getD, hh', hl']

/-- `volume_ratio_30d` of an in-range row is non-NULL exactly when
`i ≥ 30`, provided every volume is populated and no defined trailing
30-row volume mean is zero. -/
theorem ratio_isSome_iff (hvol : ∀ r ∈ rows, r.volume_usd.isSome = true)
    {i : ℕ} (hi : i < rows.length)
    (hmean : 30 ≤ i →
      avgNN (fun x => x.volume_usd) (winMapPrec (with_returns rows) i 30) ≠ some 0) :
    ((metricRowAt (with_returns rows) i).volume_ratio_30d).isSome = true ↔ 30 ≤ i := by
  rw [metricRowAt_ratio]
  have hc := countNN_vol_winPrec hvol hi
  by_cases h30 : 30 ≤ i
  · have hc30 : countNN (fun x => x.volume_usd) (winMapPrec (with_returns rows) i 30) = 30 := by
      rw [hc]; omega
    rw [if_pos hc30]
    obtain ⟨m, hm⟩ := Option.isSome_iff_exists.mp
      (avgNN_isSome (fun x : ReturnRow => x.volume_usd)
        (winMapPrec (with_returns rows) i 30) (by rw [hc30]; norm_num))
    have hm0 : m ≠ 0 := by
      intro h0
      exact hmean h30 (by rw [hm, h0])
    obtain ⟨v, hv⟩ := Option.isSome_iff_exists.mp (hvol _ (getD_mem hi))
    have hwv : ((with_returns rows).getD i default).volume_usd = some v := by
      rw [with_returns_getD hi, returnRowAt_volume, hv]
    rw [hwv, hm]
    simp [nullif0, hm0, h30]
  · have hcn : countNN (fun x => x.volume_usd) (winMapPrec (with_returns rows) i 30) ≠ 30 := by
      rw [hc]; omega
    rw [if_neg hcn]
    simpa using h30

end Characterization

section Presentation

theorem presentRow_return (r : MetricRowQ) :
    (presentRow r).daily_return_pct = r.daily_return_pct := rfl

theorem presentRow_range (r : MetricRowQ) :
    (presentRow r).daily_range_pct = r.daily_range_pct := rfl

theorem presentRow_vol7 (r : MetricRowQ) :
    (presentRow r).vol_7d = r.vol_7d_var.map (fun q => Real.sqrt (q : ℝ)) := rfl

theorem presentRow_vol30 (r : MetricRowQ) :
    (presentRow r).vol_30d = r.vol_30d_var.map (fun q => Real.sqrt (q : ℝ)) := rfl

theorem presentRow_sma7 (r : MetricRowQ) : (presentRow r).sma_7 = r.sma_7 := rfl

theorem presentRow_sma30 (r : MetricRowQ) : (presentRow r).sma_30 = r.sma_30 := rfl

theorem presentRow_ratio (r : MetricRowQ) :
    (presentRow r).volume_ratio_30d = r.volume_ratio_30d := rfl

/-- Presenting `STDDEV_POP` as the square root of the recorded variance
does not change NULL-ness. -/
theorem presentRow_vol7_isSome (r : MetricRowQ) :
    ((presentRow r).vol_7d).isSome = (r.vol_7d_var).isSome := by
  cases h : r.vol_7d_var <;> simp [presentRow, h]

/-- Presenting `STDDEV_POP` as the square root of the recorded variance
does not change NULL-ness. -/
theorem presentRow_vol30_isSome (r : MetricRowQ) :
    ((presentRow r).vol_30d).isSome = (r.vol_30d_var).isSome := by
  cases h : r.vol_30d_var <;> simp [presentRow, h]

/-- Reading the presented per-asset output at an in-range position. -/
theorem computeAssetMetrics_getD {rows : List PriceRow} {i : ℕ} (h : i < rows.length) :
    (computeAssetMetrics rows).getD i default =
      presentRow ((computeAssetMetricsQ rows).getD i default) := by
  have h1 : i < (computeAssetMetrics rows).length := by
    simpa [computeAssetMetrics, computeAssetMetricsQ] using h
  have h2 : i < (computeAssetMetricsQ rows).length := by
    simpa [computeAssetMetricsQ] using h
  rw [List.getD_eq_getElem _ _ h1, List.getD_eq_getElem _ _ h2]
  unfold computeAssetMetrics
  apply List.getElem_map

end Presentation

section Waterfall

/-- An exact window count equal to the window's size forces every row of
the window to carry a non-NULL contribution. -/
theorem countNN_eq_all {β : Type} (f : ReturnRow → Option β) (wr : List ReturnRow) (i p : ℕ)
    (h : countNN f (winMap wr i p) = min p i + 1) :
    ∀ j ∈ winIdxs i p, (f (wr.getD j default)).isSome = true := by
  rw [countNN_winMap] at h
  have hlen : (winIdxs i p).countP (fun j => (f (wr.getD j default)).isSome) =
      (winIdxs i p).length := by
    rw [h, winIdxs, List.length_range']
  simpa using List.countP_eq_length.mp hlen

/-- A window count is at most the window's size. -/
theorem countNN_le {β : Type} (f : ReturnRow → Option β) (wr : List ReturnRow) (i p : ℕ) :
    countNN f (winMap wr i p) ≤ min p i + 1 := by
  rw [countNN_winMap]
  calc (winIdxs i p).countP _ ≤ (winIdxs i p).length := List.countP_le_length _
    _ = min p i + 1 := by rw [winIdxs, List.length_range']

/-- If the 30-row return window is exactly full, so is the 7-row one. -/
theorem vol30_imp_vol7 (wr : List ReturnRow) (i : ℕ)
    (h : ((metricRowAt wr i).vol_30d_var).isSome = true) :
    ((metricRowAt wr i).vol_7d_var).isSome = true := by
  rw [metricRowAt_vol30] at h
  by_cases hc : countNN (fun x => x.daily_return_pct) (winMap wr i 29) = 30
  · have hle := countNN_le (fun x => x.daily_return_pct) wr i 29
    have hi29 : 29 ≤ i := by omega
    have hall := countNN_eq_all (fun x => x.daily_return_pct) wr i 29 (by rw [hc]; omega)
    have hall7 : ∀ j ∈ winIdxs i 6,
        (fun j => (((wr.getD j default)).daily_return_pct).isSome) j = true := by
      intro j hj
      have hj' := mem_winIdxs.mp hj
      exact hall j (mem_winIdxs.mpr (by omega))
    have hc7 : countNN (fun x => x.daily_return_pct) (winMap wr i 6) = 7 := by
      rw [countNN_winMap, List.countP_eq_length.mpr hall7, winIdxs, List.length_range']
      omega
    rw [metricRowAt_vol7, if_pos hc7]
    exact varPopNN_isSome _ _ (by rw [hc7]; norm_num)
  · rw [if_neg hc] at h
    simp at h

/-- If the 7-row return window is exactly full, the current row's return
is itself non-NULL. -/
theorem vol7_imp_ret (wr : List ReturnRow) (i : ℕ)
    (h : ((metricRowAt wr i).vol_7d_var).isSome = true) :
    ((metricRowAt wr i).daily_return_pct).isSome = true := by
  rw [metricRowAt_vol7] at h
  by_cases hc : countNN (fun x => x.daily_return_pct) (winMap wr i 6) = 7
  · have hle := countNN_le (fun x => x.daily_return_pct) wr i 6
    have hi6 : 6 ≤ i := by omega
    have hall := countNN_eq_all (fun x => x.daily_return_pct) wr i 6 (by rw [hc]; omega)
    have hmem : i ∈ winIdxs i 6 := mem_winIdxs.mpr ⟨by omega, le_refl i⟩
    rw [metricRowAt_return]
    exact hall i hmem
  · rw [if_neg hc] at h
    simp at h

/-- If the 30-row close window is exactly full, so is the 7-row one. -/
theorem sma30_imp_sma7 (wr : List ReturnRow) (i : ℕ)
    (h : ((metricRowAt wr i).sma_30).isSome = true) :
    ((metricRowAt wr i).sma_7).isSome = true := by
  rw [metricRowAt_sma30] at h
  by_cases hc : countNN (fun x => x.close) (winMap wr i 29) = 30
  · have hle := countNN_le (fun x => x.close) wr i 29
    have hi29 : 29 ≤ i := by omega
    have hall := countNN_eq_all (fun x => x.close) wr i 29 (by rw [hc]; omega)
    have hall7 : ∀ j ∈ winIdxs i 6,
        (fun j => (((wr.getD j default)).close).isSome) j = true := by
      intro j hj
      have hj' := mem_winIdxs.mp hj
      exact hall j (mem_winIdxs.mpr (by omega))
    have hc7 : countNN (fun x => x.close) (winMap wr i 6) = 7 := by
      rw [countNN_winMap, List.countP_eq_length.mpr hall7, winIdxs, List.length_range']
      omega
    rw [metricRowAt_sma7, if_pos hc7]
    exact avgNN_isSome _ _ (by rw [hc7]; norm_num)
  · rw [if_neg hc] at h
    simp at h

end Waterfall

section Blocks

/-- Every inserted row carries the id of one of the listed assets. -/
theorem mem_outputFor_fst (db : DB) (as : List Asset) :
    ∀ p ∈ outputFor db as, p.1 ∈ as.map (fun a => a.asset_id) := by
  intro p hp
  rw [outputFor, List.mem_flatMap] at hp
  obtain ⟨a, ha, hm⟩ := hp
  rw [List.mem_map] at hm
  obtain ⟨m, _, rfl⟩ := hm
  exact List.mem_map.mpr ⟨a, ha, rfl⟩

/-- Filtering the inserted rows by an id that belongs to none of the
listed assets yields nothing. -/
theorem filter_outputFor_not_mem (db : DB) (as : List Asset) (aid : ℕ)
    (h : aid ∉ as.map (fun a => a.asset_id)) :
    (outputFor db as).filter (fun p => p.1 == aid) = [] := by
  rw [List.filter_eq_nil_iff]
  intro p hp
  have hfst := mem_outputFor_fst db as p hp
  simp only [beq_iff_eq]
  intro heq
  exact h (heq ▸ hfst)

/-- With unique asset ids, filtering the inserted rows by one listed
asset's id recovers exactly that asset's computed series. -/
theorem filter_outputFor_mem (db : DB) (as : List Asset) (a : Asset) (ha : a ∈ as)
    (hnd : (as.map (fun x => x.asset_id)).Nodup) :
    (outputFor db as).filter (fun p => p.1 == a.asset_id) =
      (computeAssetMetricsQ (seriesFor db a.asset_id)).map (fun m => (a.asset_id, m)) := by
  induction as with
  | nil => cases ha
  | cons b rest ih =>
    rw [List.map_cons, List.nodup_cons] at hnd
    rw [outputFor, List.flatMap_cons, List.filter_append]
    rcases List.mem_cons.mp ha with rfl | hrest
    · have h1 : (List.map (fun m => (a.asset_id, m))
          (computeAssetMetricsQ (seriesFor db a.asset_id))).filter
            (fun p => p.1 == a.asset_id) =
          List.map (fun m => (a.asset_id, m)) (computeAssetMetricsQ (seriesFor db a.asset_id)) := by
        rw [List.filter_eq_self]
        intro p hp
        rw [List.mem_map] at hp
        obtain ⟨m, _, rfl⟩ := hp
        simp
      have h2 : (rest.flatMap (fun x =>
          (computeAssetMetricsQ (seriesFor db x.asset_id)).map (fun m => (x.asset_id, m)))).filter
            (fun p => p.1 == a.asset_id) = [] :=
        filter_outputFor_not_mem db rest a.asset_id hnd.1
      rw [h1, h2, List.append_nil]
    · have hba : ¬b.asset_id = a.asset_id := by
        intro h
        exact hnd.1 (h ▸ List.mem_map.mpr ⟨a, hrest, rfl⟩)
      have h1 : (List.map (fun m => (b.asset_id, m))
          (computeAssetMetricsQ (seriesFor db b.asset_id))).filter
            (fun p => p.1 == a.asset_id) = [] := by
        rw [List.filter_eq_nil_iff]
        intro p hp
        rw [List.mem_map] at hp
        obtain ⟨m, _, rfl⟩ := hp
        simpa using hba
      rw [h1, List.nil_append]
      exact ih hrest hnd.2

/-- With unique asset ids, the stored block of one active asset after a
recompute is exactly its presented computed series. -/
theorem assetBlock_eq (db : DB) (a : Asset) (ha : a ∈ db.assets) (hact : a.is_active = true)
    (hnd : (db.assets.map (fun x => x.asset_id)).Nodup) :
    assetBlock db a.asset_id = computeAssetMetrics (seriesFor db a.asset_id) := by
  have ha' : a ∈ activeAssets db := List.mem_filter.mpr ⟨ha, hact⟩
  have hnd' : ((activeAssets db).map (fun x => x.asset_id)).Nodup :=
    List.Nodup.sublist ((List.filter_sublist db.assets).map (fun x => x.asset_id)) hnd
  rw [assetBlock, metricsOutput, filter_outputFor_mem db (activeAssets db) a ha' hnd',
    List.map_map, List.map_map, computeAssetMetrics]
  rfl

/-- With unique asset ids, the stored Q-level block of one active asset
after a recompute is exactly its computed series. -/
theorem blockQ_eq (db : DB) (a : Asset) (ha : a ∈ db.assets) (hact : a.is_active = true)
    (hnd : (db.assets.map (fun x => x.asset_id)).Nodup) :
    ((metricsOutput db).filter (fun p => p.1 == a.asset_id)).map Prod.snd =
      computeAssetMetricsQ (seriesFor db a.asset_id) := by
  have ha' : a ∈ activeAssets db := List.mem_filter.mpr ⟨ha, hact⟩
  have hnd' : ((activeAssets db).map (fun x => x.asset_id)).Nodup :=
    List.Nodup.sublist ((List.filter_sublist db.assets).map (fun x => x.asset_id)) hnd
  rw [metricsOutput, filter_outputFor_mem db (activeAssets db) a ha' hnd', List.map_map]
  exact List.map_id _

end Blocks

section Counts

/-- `isNone` is the complement of `isSome`. -/
theorem isNone_iff_not_isSome {α : Type} (o : Option α) :
    o.isNone = true ↔ ¬o.isSome = true := by
  cases o <;> simp

/-- NULL count of a metric column over one asset's computed series, from
a warm-up characterisation of the column. -/
theorem nullCount_charQ {β : Type} (rows : List PriceRow) (f : MetricRowQ → Option β) (k : ℕ)
    (hchar : ∀ i, i < rows.length →
      ((f (metricRowAt (with_returns rows) i)).isSome = true ↔ k ≤ i)) :
    nullCount f (computeAssetMetricsQ rows) = min k rows.length := by
  rw [computeAssetMetricsQ, nullCount, List.countP_map]
  have hcg : ∀ j ∈ List.range rows.length,
      ((fun r => (f r).isNone) ∘ metricRowAt (with_returns rows)) j = true ↔
        decide (j < k) = true := by
    intro j hj
    rw [List.mem_range] at hj
    have hc := hchar j hj
    simp only [Function.comp_apply, isNone_iff_not_isSome, hc, decide_eq_true_eq]
    omega
  rw [List.countP_congr hcg, countP_range_lt]

/-- A presented NULL count agrees with the stored NULL count whenever
presentation preserves the column's NULL-ness. -/
theorem nullCount_map_present {β γ : Type} (g : MetricPoint → Option β)
    (f : MetricRowQ → Option γ) (h : ∀ r, (g (presentRow r)).isNone = (f r).isNone)
    (L : List MetricRowQ) :
    nullCount g (L.map presentRow) = nullCount f L := by
  rw [nullCount, nullCount, List.countP_map]
  apply List.countP_congr
  intro r _
  simp [Function.comp, h r]

end Counts

section Runs

/-- The inserted row set depends only on `assets` and `daily_prices`,
never on the pre-existing `daily_metrics` rows. -/
theorem metricsOutput_metrics_invariant (A : List Asset) (P : List PriceRow)
    (M M' : List (ℕ × MetricRowQ)) :
    metricsOutput ⟨A, P, M⟩ = metricsOutput ⟨A, P, M'⟩ := rfl

/-- A fault-free run: DELETE, INSERT and COMMIT all execute, the
validation summary is produced, and the connection is closed. -/
theorem main_run_ok {ε : Type} (db : DB) :
    main_run db (none : Option ε) none =
      (⟨{ db with daily_metrics := metricsOutput db },
        { db with daily_metrics := metricsOutput db }, true⟩,
       Except.ok (metricsOutput db).length,
       some (log_validation_summary { db with daily_metrics := metricsOutput db })) := by
  cases db
  rfl

/-- A run whose DELETE statement raises: rollback, re-raise, close. -/
theorem main_run_error_fd {ε : Type} (db : DB) (e : ε) (fi : Option ε) :
    main_run db (some e) fi = (⟨db, db, true⟩, Except.error e, none) := by
  cases db
  rfl

/-- A run whose INSERT statement raises: rollback, re-raise, close. -/
theorem main_run_error_fi {ε : Type} (db : DB) (e : ε) :
    main_run db none (some e) = (⟨db, db, true⟩, Except.error e, none) := by
  cases db
  rfl

end Runs

section ConstValues

/-- `AVG` over a window whose non-NULL values are all `c` is `c`. -/
theorem avgNN_const {α : Type} (f : α → Option ℚ) (l : List α) (c : ℚ)
    (h : ∀ x ∈ l.filterMap f, x = c) (hne : countNN f l ≠ 0) :
    avgNN f l = some c := by
  have hne' : (l.filterMap f).length ≠ 0 := hne
  show (if (l.filterMap f).length = 0 then none
    else some ((l.filterMap f).sum / ((l.filterMap f).length : ℚ))) = some c
  rw [if_neg hne']
  congr 1
  rw [List.sum_eq_card_nsmul (l.filterMap f) c h, nsmul_eq_mul, mul_comm, mul_div_assoc,
    div_self (Nat.cast_ne_zero.mpr hne'), mul_one]

/-- The population variance of a window whose non-NULL values are all
`c` is `0`. -/
theorem varPopNN_const {α : Type} (f : α → Option ℚ) (l : List α) (c : ℚ)
    (h : ∀ x ∈ l.filterMap f, x = c) (hne : countNN f l ≠ 0) :
    varPopNN f l = some 0 := by
  have hne' : (l.filterMap f).length ≠ 0 := hne
  show (if (l.filterMap f).length = 0 then none
    else some ((((l.filterMap f).map
      (fun x => (x - (l.filterMap f).sum / ((l.filterMap f).length : ℚ)) ^ 2)).sum) /
        ((l.filterMap f).length : ℚ))) = some 0
  rw [if_neg hne']
  congr 1
  have hmean : (l.filterMap f).sum / ((l.filterMap f).length : ℚ) = c := by
    rw [List.sum_eq_card_nsmul (l.filterMap f) c h, nsmul_eq_mul, mul_comm, mul_div_assoc,
      div_self (Nat.cast_ne_zero.mpr hne'), mul_one]
  have hz : ∀ y ∈ (l.filterMap f).map
      (fun x => (x - (l.filterMap f).sum / ((l.filterMap f).length : ℚ)) ^ 2), y = 0 := by
    intro y hy
    rw [List.mem_map] at hy
    obtain ⟨x, hx, rfl⟩ := hy
    rw [h x hx, hmean]
    simp
  rw [List.sum_eq_zero hz]
  exact zero_div _

/-- Length of the 40-day constant series. -/
theorem constSeries_length : constSeries.length = 40 := by
  rw [constSeries, List.length_map, List.length_range]

/-- The constant series' row at an in-range position. -/
theorem constSeries_getD {i : ℕ} (h : i < 40) :
    constSeries.getD i default =
      { asset_id := 1, date := (i : ℤ), open_ := some 100, high := some 100,
        low := some 100, close := some 100, volume_usd := some 1000 } := by
  rw [constSeries]
  exact getD_range_map (fun (d : ℕ) =>
    ({ asset_id := 1, date := (d : ℤ), open_ := some 100, high := some 100,
       low := some 100, close := some 100, volume_usd := some 1000 } : PriceRow)) h

/-- Every daily return of the constant series after the first row is 0. -/
theorem constSeries_ret {j : ℕ} (h1 : 1 ≤ j) (h2 : j < 40) :
    (returnRowAt constSeries j).daily_return_pct = some 0 := by
  have hj0 : ¬j = 0 := by omega
  have e1 := constSeries_getD (show j - 1 < 40 by omega)
  have e2 := constSeries_getD h2
  simp only [returnRowAt, hj0, if_false, e1, e2]
  norm_num

/-- Every non-NULL return inside any trailing window of the constant
series is 0 (the first row's NULL return is skipped by the aggregate). -/
theorem constSeries_ret_win_zero {i : ℕ} (p : ℕ) (hi : i < 40) :
    ∀ x ∈ (winMap (with_returns constSeries) i p).filterMap
      (fun w => w.daily_return_pct), x = 0 := by
  intro x hx
  rw [List.mem_filterMap] at hx
  obtain ⟨w, hw, hfx⟩ := hx
  rw [winMap, List.mem_map] at hw
  obtain ⟨j, hj, rfl⟩ := hw
  have hj' := mem_winIdxs.mp hj
  have hj40 : j < constSeries.length := by rw [constSeries_length]; omega
  rw [with_returns_getD hj40] at hfx
  rcases Nat.eq_zero_or_pos j with rfl | hj1
  · rw [show (returnRowAt constSeries 0).daily_return_pct = none from rfl] at hfx
    cases hfx
  · rw [constSeries_ret hj1 (by omega)] at hfx
    exact (Option.some_inj.mp hfx).symm

/-- Every close inside any trailing window of the constant series
is 100. -/
theorem constSeries_close_win {i : ℕ} (p : ℕ) (hi : i < 40) :
    ∀ x ∈ (winMap (with_returns constSeries) i p).filterMap (fun w => w.close),
      x = 100 := by
  intro x hx
  rw [List.mem_filterMap] at hx
  obtain ⟨w, hw, hfx⟩ := hx
  rw [winMap, List.mem_map] at hw
  obtain ⟨j, hj, rfl⟩ := hw
  have hj' := mem_winIdxs.mp hj
  have hj40 : j < constSeries.length := by rw [constSeries_length]; omega
  rw [with_returns_getD hj40, returnRowAt_close, constSeries_getD (by omega)] at hfx
  exact (Option.some_inj.mp hfx).symm

/-- Every volume inside any preceding-rows window of the constant
series is 1000. -/
theorem constSeries_vol_win {i : ℕ} (hi : i < 40) :
    ∀ x ∈ (winMapPrec (with_returns constSeries) i 30).filterMap
      (fun w => w.volume_usd), x = 1000 := by
  intro x hx
  rw [List.mem_filterMap] at hx
  obtain ⟨w, hw, hfx⟩ := hx
  rw [winMapPrec, List.mem_map] at hw
  obtain ⟨j, hj, rfl⟩ := hw
  have hj' := mem_winIdxsPrec.mp hj
  have hj40 : j < constSeries.length := by rw [constSeries_length]; omega
  rw [with_returns_getD hj40, returnRowAt_volume, constSeries_getD (by omega)] at hfx
  exact (Option.some_inj.mp hfx).symm

/-- Length of the 37-day zero-volume series. -/
theorem zeroVolSeries_length : zeroVolSeries.length = 37 := by
  rw [zeroVolSeries, List.length_map, List.length_range]

/-- The zero-volume series' row at an in-range position. -/
theorem zeroVolSeries_getD {i : ℕ} (h : i < 37) :
    zeroVolSeries.getD i default =
      { asset_id := 1, date := (i : ℤ), open_ := some 1, high := some 1,
        low := some 1, close := some 1, volume_usd := some 0 } := by
  rw [zeroVolSeries]
  exact getD_range_map (fun (d : ℕ) =>
    ({ asset_id := 1, date := (d : ℤ), open_ := some 1, high := some 1,
       low := some 1, close := some 1, volume_usd := some 0 } : PriceRow)) h

/-- Every volume inside any preceding-rows window of the zero-volume
series is 0. -/
theorem zeroVolSeries_vol_win {i : ℕ} (hi : i < 37) :
    ∀ x ∈ (winMapPrec (with_returns zeroVolSeries) i 30).filterMap
      (fun w => w.volume_usd), x = 0 := by
  intro x hx
  rw [List.mem_filterMap] at hx
  obtain ⟨w, hw, hfx⟩ := hx
  rw [winMapPrec, List.mem_map] at hw
  obtain ⟨j, hj, rfl⟩ := hw
  have hj' := mem_winIdxsPrec.mp hj
  have hj37 : j < zeroVolSeries.length := by rw [zeroVolSeries_length]; omega
  rw [with_returns_getD hj37, returnRowAt_volume, zeroVolSeries_getD (by omega)] at hfx
  exact (Option.some_inj.mp hfx).symm

/-- On the zero-volume series every `volume_ratio_30d` is NULL: before
row 30 the count guard fails, from row 30 on the `NULLIF` guard fires
on the zero mean. -/
theorem zeroVolSeries_ratio_none {i : ℕ} (hi : i < 37) :
    (metricRowAt (with_returns zeroVolSeries) i).volume_ratio_30d = none := by
  have hi' : i < zeroVolSeries.length := by rw [zeroVolSeries_length]; exact hi
  have hvol : ∀ r ∈ zeroVolSeries, r.volume_usd.isSome = true := by decide
  have hc := countNN_vol_winPrec hvol hi'
  by_cases h30 : 30 ≤ i
  · have hcnt : countNN (fun x => x.volume_usd)
        (winMapPrec (with_returns zeroVolSeries) i 30) = 30 := by
      rw [hc]; omega
    have hmean : avgNN (fun x => x.volume_usd)
        (winMapPrec (with_returns zeroVolSeries) i 30) = some 0 :=
      avgNN_const _ _ 0 (zeroVolSeries_vol_win hi) (by rw [hcnt]; norm_num)
    rw [metricRowAt_ratio, if_pos hcnt, hmean]
    have hnl : nullif0 (some 0) = none := by simp [nullif0]
    rw [hnl]
    cases ((with_returns zeroVolSeries).getD i default).volume_usd <;> rfl
  · have hcnt : countNN (fun x => x.volume_usd)
        (winMapPrec (with_returns zeroVolSeries) i 30) ≠ 30 := by
      rw [hc]; omega
    rw [metricRowAt_ratio, if_neg hcnt]

/-- Length of the 37-day all-ones series. -/
theorem onesSeries_length : onesSeries.length = 37 := by
  rw [onesSeries, List.length_map, List.length_range]

/-- The all-ones series' row at an in-range position. -/
theorem onesSeries_getD {i : ℕ} (h : i < 37) :
    onesSeries.getD i default =
      { asset_id := 1, date := (i : ℤ), open_ := some 1, high := some 1,
        low := some 1, close := some 1, volume_usd := some 1 } := by
  rw [onesSeries]
  exact getD_range_map (fun (d : ℕ) =>
    ({ asset_id := 1, date := (d : ℤ), open_ := some 1, high := some 1,
       low := some 1, close := some 1, volume_usd := some 1 } : PriceRow)) h

/-- Every volume inside any preceding-rows window of the all-ones
series is 1. -/
theorem onesSeries_vol_win {i : ℕ} (hi : i < 37) :
    ∀ x ∈ (winMapPrec (with_returns onesSeries) i 30).filterMap
      (fun w => w.volume_usd), x = 1 := by
  intro x hx
  rw [List.mem_filterMap] at hx
  obtain ⟨w, hw, hfx⟩ := hx
  rw [winMapPrec, List.mem_map] at hw
  obtain ⟨j, hj, rfl⟩ := hw
  have hj' := mem_winIdxsPrec.mp hj
  have hj37 : j < onesSeries.length := by rw [onesSeries_length]; omega
  rw [with_returns_getD hj37, returnRowAt_volume, onesSeries_getD (by omega)] at hfx
  exact (Option.some_inj.mp hfx).symm

/-- On the all-ones series every defined trailing 30-day volume mean is
1, hence nonzero. -/
theorem onesSeries_mean_ne {i : ℕ} (hi : i < 37) (h30 : 30 ≤ i) :
    avgNN (fun x => x.volume_usd) (winMapPrec (with_returns onesSeries) i 30) ≠ some 0 := by
  have hvol : ∀ r ∈ onesSeries, r.volume_usd.isSome = true := by decide
  have hi' : i < onesSeries.length := by rw [onesSeries_length]; exact hi
  have hcnt : countNN (fun x => x.volume_usd)
      (winMapPrec (with_returns onesSeries) i 30) = 30 := by
    rw [countNN_vol_winPrec hvol hi']; omega
  rw [avgNN_const (fun x : ReturnRow => x.volume_usd)
    (winMapPrec (with_returns onesSeries) i 30) 1 (onesSeries_vol_win hi)
    (by rw [hcnt]; norm_num)]
  simp

end ConstValues

section Claims

/-- C2 (amended): for a price series ordered by date with no internal
gaps and all required upstream values non-null, at 0-based row position
`i`: `sma_7` is non-null exactly when `i ≥ 6` and `sma_30` exactly when
`i ≥ 29`, as claimed; but `vol_7d` is non-null exactly when `i ≥ 7` and
`vol_30d` exactly when `i ≥ 30` (not `i ≥ 6` / `i ≥ 29`), because the
trailing return window includes the first row's NULL return. -/
theorem C2_warmup_boundaries (rows : List PriceRow)
    (hnn : ∀ r ∈ rows, r.close.isSome = true ∧ r.volume_usd.isSome = true ∧
      r.high.isSome = true ∧ r.low.isSome = true)
    (hgap : gaplessB rows = true) (i : ℕ) (hi : i < rows.length) :
    (((computeAssetMetrics rows).getD i default).vol_7d.isSome = true ↔ 7 ≤ i) ∧
    (((computeAssetMetrics rows).getD i default).sma_7.isSome = true ↔ 6 ≤ i) ∧
    (((computeAssetMetrics rows).getD i default).vol_30d.isSome = true ↔ 30 ≤ i) ∧
    (((computeAssetMetrics rows).getD i default).sma_30.isSome = true ↔ 29 ≤ i) := by
  have hclose : ∀ r ∈ rows, r.close.isSome = true := fun r hr => (hnn r hr).1
  rw [computeAssetMetrics_getD hi, computeAssetMetricsQ_getD hi]
  refine ⟨?_, ?_, ?_, ?_⟩
  · rw [presentRow_vol7_isSome]
    exact vol7_isSome_iff hclose hi
  · rw [presentRow_sma7]
    exact sma7_isSome_iff hclose hi
  · rw [presentRow_vol30_isSome]
    exact vol30_isSome_iff hclose hi
  · rw [presentRow_sma30]
    exact sma30_isSome_iff hclose hi

/-- C2 witness: on the 40-day constant series, row 35 has a non-null
`vol_7d`, obtained from the amended boundary theorem. -/
theorem C2_warmup_boundaries_witness :
    ((computeAssetMetrics constSeries).getD 35 default).vol_7d.isSome = true :=
  ((C2_warmup_boundaries constSeries (by decide) (by decide) 35 (by decide)).1).mpr
    (by norm_num)

/-- C2 counterexample: the 40-day constant series is gapless with every
upstream value populated, yet `vol_7d` is NULL at row position 6 — the
claimed "non-null exactly when `i ≥ 6`" fails at `i = 6`. -/
theorem C2_warmup_boundaries_counterexample :
    gaplessB constSeries = true ∧
    constSeries.all (fun r => r.close.isSome && r.volume_usd.isSome &&
      r.high.isSome && r.low.isSome) = true ∧
    ((computeAssetMetrics constSeries).getD 6 default).vol_7d.isSome = false := by
  refine ⟨by decide, by decide, ?_⟩
  have h6 : (6 : ℕ) < constSeries.length := by decide
  rw [computeAssetMetrics_getD h6, computeAssetMetricsQ_getD h6, presentRow_vol7_isSome]
  decide

/-- C5 (confirmed): on any row whose 30 strictly preceding rows all have
non-null volume, a trailing volume mean of exactly 0 makes
`volume_ratio_30d` NULL — the `NULLIF(.., 0)` guard, never an infinity,
NaN or error (the model's value domain has no such values to produce). -/
theorem C5_zero_mean_guard (rows : List PriceRow) (i : ℕ) (hi : i < rows.length)
    (hcnt : countNN (fun x => x.volume_usd) (winMapPrec (with_returns rows) i 30) = 30)
    (hmean : avgNN (fun x => x.volume_usd) (winMapPrec (with_returns rows) i 30) = some 0) :
    ((computeAssetMetrics rows).getD i default).volume_ratio_30d = none := by
  rw [computeAssetMetrics_getD hi, computeAssetMetricsQ_getD hi, presentRow_ratio,
    metricRowAt_ratio, if_pos hcnt, hmean]
  have hnl : nullif0 (some 0) = none := by simp [nullif0]
  rw [hnl]
  cases ((with_returns rows).getD i default).volume_usd <;> rfl

/-- C5 witness: on the 37-day zero-volume series, row 30 has 30 fully
populated preceding volumes with mean 0, and `volume_ratio_30d` is NULL. -/
theorem C5_zero_mean_guard_witness :
    ((computeAssetMetrics zeroVolSeries).getD 30 default).volume_ratio_30d = none :=
  C5_zero_mean_guard zeroVolSeries 30 (by decide) (by decide)
    (avgNN_const _ _ 0 (by decide) (by decide))

/-- C10 (confirmed): on any row whose 30 strictly preceding rows all
have non-null volume with a nonzero mean, a NULL volume on the row
itself makes `volume_ratio_30d` NULL: the count guard inspects only the
preceding window, but the NULL numerator propagates. -/
theorem C10_null_numerator (rows : List PriceRow) (i : ℕ) (hi : i < rows.length)
    (hcnt : countNN (fun x => x.volume_usd) (winMapPrec (with_returns rows) i 30) = 30)
    (m : ℚ)
    (hmean : avgNN (fun x => x.volume_usd) (winMapPrec (with_returns rows) i 30) = some m)
    (hm : m ≠ 0) (hnull : (rows.getD i default).volume_usd = none) :
    ((computeAssetMetrics rows).getD i default).volume_ratio_30d = none := by
  rw [computeAssetMetrics_getD hi, computeAssetMetricsQ_getD hi, presentRow_ratio,
    metricRowAt_ratio, if_pos hcnt, hmean]
  have hwv : ((with_returns rows).getD i default).volume_usd = none := by
    rw [with_returns_getD hi, returnRowAt_volume, hnull]
  rw [hwv]

/-- C10 witness: on the 31-day series with volume 1 on days 0–29 and a
NULL volume on day 30, row 30's `volume_ratio_30d` is NULL although its
preceding window is fully populated with mean 1. -/
theorem C10_null_numerator_witness :
    ((computeAssetMetrics mixedVolSeries).getD 30 default).volume_ratio_30d = none :=
  C10_null_numerator mixedVolSeries 30 (by decide) (by decide) 1
    (avgNN_const _ _ 1 (by decide) (by decide)) (by norm_num) (by decide)

/-- C1 (amended): for every active asset (asset ids unique) whose price
series has at least 37 rows, no internal gaps, every column populated on
every row, and — the amendment forced by the counterexample — no
defined trailing 30-day volume mean equal to zero, the recomputed store
holds for that asset exactly 1 NULL `daily_return_pct`, 0 NULL
`daily_range_pct`, 7 NULL `vol_7d`, 30 NULL `vol_30d`, 6 NULL `sma_7`,
29 NULL `sma_30` and 30 NULL `volume_ratio_30d` — and this is precisely
the per-asset expected-value check of the Validation Auditor. -/
theorem C1_expected_null_counts (db : DB) (a : Asset) (ha : a ∈ db.assets)
    (hact : a.is_active = true)
    (hnd : (db.assets.map (fun x => x.asset_id)).Nodup)
    (hlen : 37 ≤ (seriesFor db a.asset_id).length)
    (hgap : gaplessB (seriesFor db a.asset_id) = true)
    (hnn : ∀ r ∈ seriesFor db a.asset_id, r.open_.isSome = true ∧ r.high.isSome = true ∧
      r.low.isSome = true ∧ r.close.isSome = true ∧ r.volume_usd.isSome = true)
    (hmean : ∀ i, i < (seriesFor db a.asset_id).length → 30 ≤ i →
      avgNN (fun x => x.volume_usd)
        (winMapPrec (with_returns (seriesFor db a.asset_id)) i 30) ≠ some 0) :
    nullCount (fun m => m.daily_return_pct) (assetBlock db a.asset_id) = 1 ∧
    nullCount (fun m => m.daily_range_pct) (assetBlock db a.asset_id) = 0 ∧
    nullCount (fun m => m.vol_7d) (assetBlock db a.asset_id) = 7 ∧
    nullCount (fun m => m.vol_30d) (assetBlock db a.asset_id) = 30 ∧
    nullCount (fun m => m.sma_7) (assetBlock db a.asset_id) = 6 ∧
    nullCount (fun m => m.sma_30) (assetBlock db a.asset_id) = 29 ∧
    nullCount (fun m => m.volume_ratio_30d) (assetBlock db a.asset_id) = 30 ∧
    valRowOk (valRowFor a (((metricsOutput db).filter
      (fun p => p.1 == a.asset_id)).map Prod.snd)) = true := by
  have hclose : ∀ r ∈ seriesFor db a.asset_id, r.close.isSome = true :=
    fun r hr => (hnn r hr).2.2.2.1
  have hvol : ∀ r ∈ seriesFor db a.asset_id, r.volume_usd.isSome = true :=
    fun r hr => (hnn r hr).2.2.2.2
  have hhi : ∀ r ∈ seriesFor db a.asset_id, r.high.isSome = true :=
    fun r hr => (hnn r hr).2.1
  have hlo : ∀ r ∈ seriesFor db a.asset_id, r.low.isSome = true :=
    fun r hr => (hnn r hr).2.2.1
  have cret : ∀ i, i < (seriesFor db a.asset_id).length →
      (((metricRowAt (with_returns (seriesFor db a.asset_id)) i).daily_return_pct).isSome
        = true ↔ 1 ≤ i) := by
    intro i hi
    rw [metricRowAt_return, with_returns_getD hi]
    exact ret_isSome hclose hi
  have crng : ∀ i, i < (seriesFor db a.asset_id).length →
      (((metricRowAt (with_returns (seriesFor db a.asset_id)) i).daily_range_pct).isSome
        = true ↔ 0 ≤ i) := by
    intro i hi
    have h := range_isSome hi (hhi _ (getD_mem hi)) (hlo _ (getD_mem hi))
    simp [h]
  have cvr : ∀ i, i < (seriesFor db a.asset_id).length →
      (((metricRowAt (with_returns (seriesFor db a.asset_id)) i).volume_ratio_30d).isSome
        = true ↔ 30 ≤ i) :=
    fun i hi => ratio_isSome_iff hvol hi (hmean i hi)
  have qret : nullCount (fun m : MetricRowQ => m.daily_return_pct)
      (computeAssetMetricsQ (seriesFor db a.asset_id)) = 1 := by
    rw [nullCount_charQ _ _ 1 cret]; omega
  have qrng : nullCount (fun m : MetricRowQ => m.daily_range_pct)
      (computeAssetMetricsQ (seriesFor db a.asset_id)) = 0 := by
    rw [nullCount_charQ _ _ 0 crng]; omega
  have qv7 : nullCount (fun m : MetricRowQ => m.vol_7d_var)
      (computeAssetMetricsQ (seriesFor db a.asset_id)) = 7 := by
    rw [nullCount_charQ _ _ 7 (fun i hi => vol7_isSome_iff hclose hi)]; omega
  have qv30 : nullCount (fun m : MetricRowQ => m.vol_30d_var)
      (computeAssetMetricsQ (seriesFor db a.asset_id)) = 30 := by
    rw [nullCount_charQ _ _ 30 (fun i hi => vol30_isSome_iff hclose hi)]; omega
  have qs7 : nullCount (fun m : MetricRowQ => m.sma_7)
      (computeAssetMetricsQ (seriesFor db a.asset_id)) = 6 := by
    rw [nullCount_charQ _ _ 6 (fun i hi => sma7_isSome_iff hclose hi)]; omega
  have qs30 : nullCount (fun m : MetricRowQ => m.sma_30)
      (computeAssetMetricsQ (seriesFor db a.asset_id)) = 29 := by
    rw [nullCount_charQ _ _ 29 (fun i hi => sma30_isSome_iff hclose hi)]; omega
  have qvr : nullCount (fun m : MetricRowQ => m.volume_ratio_30d)
      (computeAssetMetricsQ (seriesFor db a.asset_id)) = 30 := by
    rw [nullCount_charQ _ _ 30 cvr]; omega
  have hb := assetBlock_eq db a ha hact hnd
  have hbq := blockQ_eq db a ha hact hnd
  have hp7 : ∀ r : MetricRowQ, ((presentRow r).vol_7d).isNone = (r.vol_7d_var).isNone := by
    intro r
    cases hr : r.vol_7d_var <;> simp [presentRow, hr]
  have hp30 : ∀ r : MetricRowQ, ((presentRow r).vol_30d).isNone = (r.vol_30d_var).isNone := by
    intro r
    cases hr : r.vol_30d_var <;> simp [presentRow, hr]
  refine ⟨?_, ?_, ?_, ?_, ?_, ?_, ?_, ?_⟩
  · rw [hb, computeAssetMetrics, nullCount_map_present (fun m => m.daily_return_pct)
      (fun r => r.daily_return_pct) (fun r => rfl)]
    exact qret
  · rw [hb, computeAssetMetrics, nullCount_map_present (fun m => m.daily_range_pct)
      (fun r => r.daily_range_pct) (fun r => rfl)]
    exact qrng
  · rw [hb, computeAssetMetrics, nullCount_map_present (fun m => m.vol_7d)
      (fun r => r.vol_7d_var) hp7]
    exact qv7
  · rw [hb, computeAssetMetrics, nullCount_map_present (fun m => m.vol_30d)
      (fun r => r.vol_30d_var) hp30]
    exact qv30
  · rw [hb, computeAssetMetrics, nullCount_map_present (fun m => m.sma_7)
      (fun r => r.sma_7) (fun r => rfl)]
    exact qs7
  · rw [hb, computeAssetMetrics, nullCount_map_present (fun m => m.sma_30)
      (fun r => r.sma_30) (fun r => rfl)]
    exact qs30
  · rw [hb, computeAssetMetrics, nullCount_map_present (fun m => m.volume_ratio_30d)
      (fun r => r.volume_ratio_30d) (fun r => rfl)]
    exact qvr
  · rw [hbq]
    simp [valRowOk, valRowFor, qret, qrng, qv7, qv30, qs7, qs30, qvr]

/-- C1 witness: for the all-ones 37-day store, the recomputed block of
the one active asset has exactly 7 NULL `vol_7d` rows. -/
theorem C1_expected_null_counts_witness :
    nullCount (fun m => m.vol_7d) (assetBlock onesDB 1) = 7 := by
  have hlen37 : (seriesFor onesDB (Asset.mk 1 "BTC" true).asset_id).length = 37 := by decide
  have h := C1_expected_null_counts onesDB ⟨1, "BTC", true⟩ (List.mem_singleton.mpr rfl)
    rfl (by decide) (by decide) (by decide) (by decide) ?hmean
  case hmean =>
    intro i hi h30
    rw [hlen37] at hi
    have hs : seriesFor onesDB (Asset.mk 1 "BTC" true).asset_id = onesSeries := by decide
    rw [hs]
    exact onesSeries_mean_ne hi h30
  exact h.2.2.1

/-- C1 counterexample: a store with one active asset and a 37-day
gapless, fully populated series whose volume is 0 on every row meets
every hypothesis of the claim, yet all 37 `volume_ratio_30d` values are
NULL — not the claimed 30 — because the `NULLIF` divide-by-zero guard
fires on every zero trailing mean. -/
theorem C1_expected_null_counts_counterexample :
    zeroVolDB.assets.all (fun a => a.is_active) = true ∧
    gaplessB (seriesFor zeroVolDB 1) = true ∧
    (seriesFor zeroVolDB 1).length = 37 ∧
    (seriesFor zeroVolDB 1).all (fun r => r.open_.isSome && r.high.isSome &&
      r.low.isSome && r.close.isSome && r.volume_usd.isSome) = true ∧
    nullCount (fun m => m.volume_ratio_30d) (assetBlock zeroVolDB 1) = 37 := by
  have hseq : seriesFor zeroVolDB 1 = zeroVolSeries := by decide
  refine ⟨by decide, by decide, by decide, by decide, ?_⟩
  have hb := assetBlock_eq zeroVolDB ⟨1, "BTC", true⟩ (List.mem_singleton.mpr rfl)
    rfl (by decide)
  have hchar : ∀ i, i < zeroVolSeries.length →
      (((metricRowAt (with_returns zeroVolSeries) i).volume_ratio_30d).isSome = true ↔
        37 ≤ i) := by
    intro i hi
    rw [zeroVolSeries_length] at hi
    rw [zeroVolSeries_ratio_none hi]
    simp
    omega
  have hq : nullCount (fun m : MetricRowQ => m.volume_ratio_30d)
      (computeAssetMetricsQ zeroVolSeries) = 37 := by
    rw [nullCount_charQ _ _ 37 hchar, zeroVolSeries_length]
    omega
  show nullCount (fun m => m.volume_ratio_30d) (assetBlock zeroVolDB (Asset.mk 1 "BTC" true).asset_id) = 37
  rw [hb, hseq, computeAssetMetrics, nullCount_map_present (fun m => m.volume_ratio_30d)
    (fun r => r.volume_ratio_30d) (fun r => rfl)]
  exact hq

/-- C6 (amended): for the 40-day constant series (close 100, volume
1000), `daily_return_pct = 0` for `i ≥ 1`, `sma_7 = 100` for `i ≥ 6`,
`sma_30 = 100` for `i ≥ 29` and `volume_ratio_30d = 1` for `i ≥ 30` as
claimed, while `vol_7d = 0` holds for `i ≥ 7` and `vol_30d = 0` for
`i ≥ 30` (not `i ≥ 6` / `i ≥ 29`: at those positions the return window
still contains the first row's NULL return, so the value is NULL). -/
theorem C6_constant_series (i : ℕ) (hi : i < 40) :
    (1 ≤ i → ((computeAssetMetrics constSeries).getD i default).daily_return_pct = some 0) ∧
    (7 ≤ i → ((computeAssetMetrics constSeries).getD i default).vol_7d = some 0) ∧
    (30 ≤ i → ((computeAssetMetrics constSeries).getD i default).vol_30d = some 0) ∧
    (6 ≤ i → ((computeAssetMetrics constSeries).getD i default).sma_7 = some 100) ∧
    (29 ≤ i → ((computeAssetMetrics constSeries).getD i default).sma_30 = some 100) ∧
    (30 ≤ i → ((computeAssetMetrics constSeries).getD i default).volume_ratio_30d = some 1) := by
  have hi' : i < constSeries.length := by rw [constSeries_length]; exact hi
  have hclose : ∀ r ∈ constSeries, r.close.isSome = true := by decide
  have hvol : ∀ r ∈ constSeries, r.volume_usd.isSome = true := by decide
  rw [computeAssetMetrics_getD hi', computeAssetMetricsQ_getD hi']
  refine ⟨?_, ?_, ?_, ?_, ?_, ?_⟩
  · intro h1
    rw [presentRow_return, metricRowAt_return, with_returns_getD hi']
    exact constSeries_ret h1 hi
  · intro h7
    have hcnt : countNN (fun x => x.daily_return_pct)
        (winMap (with_returns constSeries) i 6) = 7 := by
      rw [countNN_ret_win hclose hi' 6]
      omega
    rw [presentRow_vol7, metricRowAt_vol7, if_pos hcnt,
      varPopNN_const _ _ 0 (constSeries_ret_win_zero 6 hi) (by rw [hcnt]; norm_num)]
    simp
  · intro h30
    have hcnt : countNN (fun x => x.daily_return_pct)
        (winMap (with_returns constSeries) i 29) = 30 := by
      rw [countNN_ret_win hclose hi' 29]
      omega
    rw [presentRow_vol30, metricRowAt_vol30, if_pos hcnt,
      varPopNN_const _ _ 0 (constSeries_ret_win_zero 29 hi) (by rw [hcnt]; norm_num)]
    simp
  · intro h6
    have hcnt : countNN (fun x => x.close) (winMap (with_returns constSeries) i 6) = 7 := by
      rw [countNN_close_win hclose hi' 6]
      omega
    rw [presentRow_sma7, metricRowAt_sma7, if_pos hcnt,
      avgNN_const _ _ 100 (constSeries_close_win 6 hi) (by rw [hcnt]; norm_num)]
  · intro h29
    have hcnt : countNN (fun x => x.close) (winMap (with_returns constSeries) i 29) = 30 := by
      rw [countNN_close_win hclose hi' 29]
      omega
    rw [presentRow_sma30, metricRowAt_sma30, if_pos hcnt,
      avgNN_const _ _ 100 (constSeries_close_win 29 hi) (by rw [hcnt]; norm_num)]
  · intro h30
    have hcnt : countNN (fun x => x.volume_usd)
        (winMapPrec (with_returns constSeries) i 30) = 30 := by
      rw [countNN_vol_winPrec hvol hi']
      omega
    rw [presentRow_ratio, metricRowAt_ratio, if_pos hcnt,
      avgNN_const _ _ 1000 (constSeries_vol_win hi) (by rw [hcnt]; norm_num)]
    have hwv : ((with_returns constSeries).getD i default).volume_usd = some 1000 := by
      rw [with_returns_getD hi', returnRowAt_volume, constSeries_getD hi]
    rw [hwv]
    have hnl : nullif0 (some 1000) = some 1000 := by norm_num [nullif0]
    rw [hnl]
    norm_num

/-- C6 witness: row 35 of the constant series has `vol_7d = 0`,
obtained from the amended constant-series theorem. -/
theorem C6_constant_series_witness :
    ((computeAssetMetrics constSeries).getD 35 default).vol_7d = some 0 :=
  (C6_constant_series 35 (by norm_num)).2.1 (by norm_num)

/-- C6 counterexample: at row position 6 of the constant series,
`vol_7d` is NULL, not 0 — the claimed `vol_7d = 0` for every `i ≥ 6`
fails at `i = 6`. -/
theorem C6_constant_series_counterexample :
    ((computeAssetMetrics constSeries).getD 6 default).vol_7d = none ∧
    ¬((computeAssetMetrics constSeries).getD 6 default).vol_7d = some 0 := by
  have h6 : (6 : ℕ) < constSeries.length := by rw [constSeries_length]; norm_num
  have hv : (metricRowAt (with_returns constSeries) 6).vol_7d_var = none := by decide
  rw [computeAssetMetrics_getD h6, computeAssetMetricsQ_getD h6, presentRow_vol7, hv]
  simp

/-- C3 (confirmed): the recompute is all-or-nothing.  For any injected
fault in the DELETE or INSERT step, the run closes the connection, the
visible store is either exactly the prior one or exactly the fully
recomputed one, and a faulting run leaves the prior store intact while
re-raising the original error unmodified; a fault-free run commits the
full new set and reports its row count. -/
theorem C3_transactional (ε : Type) (db : DB) (fd fi : Option ε) :
    (main_run db fd fi).1.closed = true ∧
    ((main_run db fd fi).1.durable.daily_metrics = db.daily_metrics ∨
      (main_run db fd fi).1.durable.daily_metrics = metricsOutput db) ∧
    (match fd, fi with
     | some e, _ =>
        (main_run db fd fi).1.durable = db ∧ (main_run db fd fi).2.1 = Except.error e
     | none, some e =>
        (main_run db fd fi).1.durable = db ∧ (main_run db fd fi).2.1 = Except.error e
     | none, none =>
        (main_run db fd fi).1.durable = { db with daily_metrics := metricsOutput db } ∧
          (main_run db fd fi).2.1 = Except.ok (metricsOutput db).length) := by
  rcases fd with _ | e
  · rcases fi with _ | e
    · rw [main_run_ok]
      exact ⟨rfl, Or.inr rfl, rfl, rfl⟩
    · rw [main_run_error_fi]
      exact ⟨rfl, Or.inl rfl, rfl, rfl⟩
  · rw [main_run_error_fd]
    exact ⟨rfl, Or.inl rfl, rfl, rfl⟩

/-- C4 (confirmed): the recompute output is a pure function of the
assets and price store — independent of whatever `daily_metrics` rows
exist — and running a fault-free recompute twice in succession on an
unchanged price store leaves the metrics of the first run unchanged:
identical rows, values and NULL pattern. -/
theorem C4_idempotent (A : List Asset) (P : List PriceRow) (M M' : List (ℕ × MetricRowQ)) :
    metricsOutput ⟨A, P, M⟩ = metricsOutput ⟨A, P, M'⟩ ∧
    (main_run ((main_run (⟨A, P, M⟩ : DB) (none : Option Unit) none).1.durable)
        (none : Option Unit) none).1.durable.daily_metrics =
      (main_run (⟨A, P, M⟩ : DB) (none : Option Unit) none).1.durable.daily_metrics := by
  refine ⟨rfl, ?_⟩
  rw [main_run_ok, main_run_ok]
  rfl

/-- C7 (confirmed): a validation mismatch is non-fatal.  When the audit
of the freshly committed store reports `all_ok = false`, the run still
closes normally, the committed recompute result stays in place, the
process outcome is still the inserted row count, and the mismatch is
only surfaced in the returned report. -/
theorem C7_validation_nonfatal (db : DB)
    (hmism : (log_validation_summary { db with daily_metrics := metricsOutput db }).2 = false) :
    (main_run db (none : Option Unit) none).1.closed = true ∧
    (main_run db (none : Option Unit) none).1.durable.daily_metrics = metricsOutput db ∧
    (main_run db (none : Option Unit) none).2.1 = Except.ok (metricsOutput db).length ∧
    (main_run db (none : Option Unit) none).2.2 =
      some (validationRows { db with daily_metrics := metricsOutput db }, false) := by
  rw [main_run_ok]
  refine ⟨rfl, rfl, rfl, ?_⟩
  have hrep : log_validation_summary { db with daily_metrics := metricsOutput db } =
      (validationRows { db with daily_metrics := metricsOutput db }, false) := by
    have hpair : log_validation_summary { db with daily_metrics := metricsOutput db } =
        (validationRows { db with daily_metrics := metricsOutput db },
          (log_validation_summary { db with daily_metrics := metricsOutput db }).2) := rfl
    rw [hpair, hmism]
  rw [hrep]

/-- C7 witness: a two-day series commits, the run succeeds, yet the
audit necessarily flags the warm-up counts as mismatched. -/
theorem C7_validation_nonfatal_witness :
    (main_run twoRowDB (none : Option Unit) none).2.1 =
      Except.ok (metricsOutput twoRowDB).length :=
  (C7_validation_nonfatal twoRowDB (by decide)).2.2.1

/-- C8 (confirmed): the NULL waterfall is monotone on every stored row
of every recompute: a non-null `vol_30d` forces a non-null `vol_7d`, a
non-null `vol_7d` forces a non-null `daily_return_pct` on the same row,
and a non-null `sma_30` forces a non-null `sma_7` (each Boolean
`!a || b` encodes the implication `a → b`). -/
theorem C8_null_waterfall (db : DB) :
    (metricsOutput db).all (fun p =>
      ((!p.2.vol_30d_var.isSome) || p.2.vol_7d_var.isSome) &&
      ((!p.2.vol_7d_var.isSome) || p.2.daily_return_pct.isSome) &&
      ((!p.2.sma_30.isSome) || p.2.sma_7.isSome)) = true := by
  rw [List.all_eq_true]
  intro p hp
  rw [metricsOutput, outputFor, List.mem_flatMap] at hp
  obtain ⟨a, ha, hm⟩ := hp
  rw [List.mem_map] at hm
  obtain ⟨m, hmm, rfl⟩ := hm
  rw [computeAssetMetricsQ, List.mem_map] at hmm
  obtain ⟨j, hj, rfl⟩ := hmm
  have himp : ∀ (x y : Bool), (x = true → y = true) → ((!x || y) = true) := by decide
  rw [Bool.and_eq_true, Bool.and_eq_true]
  exact ⟨⟨himp _ _ (vol30_imp_vol7 _ _), himp _ _ (vol7_imp_ret _ _)⟩,
    himp _ _ (sma30_imp_sma7 _ _)⟩

/-- C9 (confirmed): a successful recompute replaces the whole
`daily_metrics` table — whatever rows existed before, including rows of
inactive assets — with rows generated only for active assets: every
stored row's id belongs to some active asset. -/
theorem C9_inactive_purged (db : DB) :
    ((main_run db (none : Option Unit) none).1.durable.daily_metrics).all
      (fun p => db.assets.any (fun a => a.is_active && a.asset_id == p.1)) = true := by
  rw [main_run_ok]
  rw [List.all_eq_true]
  intro p hp
  rw [metricsOutput, outputFor, List.mem_flatMap] at hp
  obtain ⟨a, ha, hm⟩ := hp
  rw [List.mem_map] at hm
  obtain ⟨m, _, rfl⟩ := hm
  rw [activeAssets, List.mem_filter] at ha
  rw [List.any_eq_true]
  exact ⟨a, ha.1, by simp [ha.2]⟩

end Claims

end CryptoMetrics
